import Mathlib

/-!
Verification development for the Web Research Engine of this repository
(src/modules/web_browser.py, class WebBrowser). The Python code is embedded
shallowly: dictionaries become records with optional fields, the aiohttp
network layer becomes an explicit oracle argument, the retry loop becomes a
recursion over the attempt indices, and every network call, backoff sleep and
parser invocation is recorded in an explicit event trace so that statements
about "no network access" and backoff timing can be made precise. Sleep
durations are recorded in milliseconds (the source sleeps fractions of a
second). Python dictionaries used as caches are modelled as association lists
with prepend-on-write semantics, which agrees with dict lookup.
-/

namespace Mongkok

/-- Component model of urllib.parse.urlparse: the three fields that
WebBrowser._is_safe_url reads (scheme, netloc, hostname). -/
structure UrlParts where
  scheme : String
  netloc : String
  hostname : Option String
deriving Repr, DecidableEq

/-- ASCII lowercasing, modelling the Python str.lower calls of the embedded
code (all of which act on ASCII scheme and hostname text). -/
def lowerStr (s : String) : String :=
  String.mk (s.toList.map Char.toLower)

/-- Split a character list at every occurrence of a separator character,
modelling the Python str.split with a one-character separator. -/
def splitOnChar (sep : Char) : List Char → List (List Char)
  | [] => [[]]
  | c :: rest =>
    let r := splitOnChar sep rest
    if c == sep then [] :: r
    else
      match r with
      | [] => [[c]]
      | g :: gs => (c :: g) :: gs

/-- Whether pat occurs as a contiguous sublist of cs, modelling the Python
`in` operator on strings. -/
def listContainsSub (pat : List Char) : List Char → Bool
  | [] => pat.isEmpty
  | c :: rest => pat.isPrefixOf (c :: rest) || listContainsSub pat rest

/-- The numeric value of a string of decimal digits, modelling the Python int
constructor on already-validated digit strings. -/
def digitsVal (cs : List Char) : Nat :=
  cs.foldl (fun acc c => 10 * acc + (c.toNat - 48)) 0

/-- Prefix test, modelling the Python str.startswith. -/
def strStartsWith (s pat : String) : Bool :=
  pat.toList.isPrefixOf s.toList

/-- Characters allowed in a URL scheme after the leading letter. Modelled from
the Python stdlib urllib.parse module. -/
def isSchemeChar (c : Char) : Bool :=
  c.isAlphanum || c == '+' || c == '-' || c == '.'

/-- Modelled from the Python stdlib urllib.parse: split a leading scheme and
colon off a URL, returning the lowercased scheme and the remainder; the scheme
is empty when the text before the first colon is not a wellformed scheme. -/
def splitScheme (cs : List Char) : String × List Char :=
  let pre := cs.takeWhile (fun c => c != ':')
  let post := cs.dropWhile (fun c => c != ':')
  match post with
  | [] => ("", cs)
  | _ :: rest =>
    match pre with
    | [] => ("", cs)
    | c :: cs' =>
      if c.isAlpha && cs'.all isSchemeChar then (lowerStr (String.mk pre), rest)
      else ("", cs)

/-- Modelled from the Python stdlib urllib.parse: the authority (netloc)
component, present only when the remainder after the scheme starts with two
slashes; it extends to the next slash, question mark or hash. -/
def splitNetloc (cs : List Char) : String :=
  match cs with
  | '/' :: '/' :: rest =>
    String.mk (rest.takeWhile (fun c => c != '/' && c != '?' && c != '#'))
  | _ => ""

/-- Modelled from the Python stdlib urllib.parse: the hostname of a netloc is
what follows the last at sign, with a bracketed IPv6 literal unbracketed or an
optional port stripped, lowercased; an empty hostname is None. -/
def hostnameOfNetloc (netloc : String) : Option String :=
  let cs := netloc.toList
  let afterUser := (cs.reverse.takeWhile (fun c => c != '@')).reverse
  let host :=
    match afterUser with
    | '[' :: rest => rest.takeWhile (fun c => c != ']')
    | _ => afterUser.takeWhile (fun c => c != ':')
  if host.isEmpty then none else some (String.mk (host.map Char.toLower))

/-- Modelled from the Python stdlib: urllib.parse.urlparse restricted to the
components _is_safe_url consumes. -/
def urlparse (url : String) : UrlParts :=
  let (scheme, rest) := splitScheme url.toList
  let netloc := splitNetloc rest
  { scheme := scheme, netloc := netloc, hostname := hostnameOfNetloc netloc }

/-- One octet of a dotted-quad IPv4 literal: one to three digits, no leading
zero, value at most 255. Modelled from the Python stdlib ipaddress module. -/
def parseOctet (s : String) : Option Nat :=
  let cs := s.toList
  if cs.length = 0 || 3 < cs.length then none
  else if !(cs.all Char.isDigit) then none
  else if 1 < cs.length && cs.headD ' ' == '0' then none
  else
    let n := digitsVal cs
    if n ≤ 255 then some n else none

/-- An IPv4 address as its four octets. -/
structure IPv4 where
  a : Nat
  b : Nat
  c : Nat
  d : Nat
deriving Repr, DecidableEq

/-- Modelled from the Python stdlib: the IPv4Address constructor on a
dotted-quad literal; non-IPv4 text yields none. -/
def parseIPv4 (s : String) : Option IPv4 :=
  match (splitOnChar '.' s.toList).map (fun g => parseOctet (String.mk g)) with
  | [some a, some b, some c, some d] => some ⟨a, b, c, d⟩
  | _ => none

/-- Modelled from the Python stdlib: IPv4Address.is_loopback (127.0.0.0/8). -/
def ipLoopback (ip : IPv4) : Bool :=
  ip.a == 127

/-- Modelled from the Python stdlib: IPv4Address.is_link_local
(169.254.0.0/16). -/
def ipLinkLocal (ip : IPv4) : Bool :=
  ip.a == 169 && ip.b == 254

/-- Modelled from the Python stdlib: IPv4Address.is_private, the union of the
private-use and reserved networks the stdlib lists. -/
def ipPrivate (ip : IPv4) : Bool :=
  ip.a == 0 || ip.a == 10 || ip.a == 127
  || (ip.a == 169 && ip.b == 254)
  || (ip.a == 172 && 16 ≤ ip.b && ip.b ≤ 31)
  || (ip.a == 192 && ip.b == 0 && ip.c == 0 && ip.d ≤ 7)
  || (ip.a == 192 && ip.b == 0 && ip.c == 0 && (ip.d == 170 || ip.d == 171))
  || (ip.a == 192 && ip.b == 0 && ip.c == 2)
  || (ip.a == 192 && ip.b == 168)
  || (ip.a == 198 && (ip.b == 18 || ip.b == 19))
  || (ip.a == 198 && ip.b == 51 && ip.c == 100)
  || (ip.a == 203 && ip.b == 0 && ip.c == 113)
  || 240 ≤ ip.a


/-- The value of one hexadecimal digit character. -/
def hexVal (c : Char) : Nat :=
  if c.isDigit then c.toNat - 48
  else if 'a' ≤ c && c ≤ 'f' then c.toNat - 87
  else c.toNat - 55

/-- Whether a character is a hexadecimal digit. -/
def isHexChar (c : Char) : Bool :=
  c.isDigit || ('a' ≤ c && c ≤ 'f') || ('A' ≤ c && c ≤ 'F')

/-- Modelled from the Python stdlib: IPv6Address parsing of one hextet, one to
four hexadecimal digits. -/
def parseHextet (cs : List Char) : Option Nat :=
  if cs.isEmpty || 4 < cs.length || !(cs.all isHexChar) then none
  else some (cs.foldl (fun acc c => 16 * acc + hexVal c) 0)

/-- Big-endian accumulation of a run of hextets into one number. -/
def hextetsVal (ps : List (List Char)) : Option Nat :=
  ps.foldl
    (fun acc p =>
      match acc, parseHextet p with
      | some a, some v => some (a * 65536 + v)
      | _, _ => none)
    (some 0)

/-- The lowercase hexadecimal digit for a value below sixteen. -/
def hexDigit (n : Nat) : Char :=
  if n < 10 then Char.ofNat (48 + n) else Char.ofNat (87 + n)

/-- Hexadecimal rendering of a hextet value, used when an embedded IPv4 tail
is rewritten into two hextets as the Python parser does. -/
def toHexCharsAux : Nat → Nat → List Char
  | 0, _ => []
  | fuel + 1, n => if n = 0 then [] else toHexCharsAux fuel (n / 16) ++ [hexDigit (n % 16)]

/-- Minimal lowercase hexadecimal rendering of a number below two to the
sixteenth. -/
def toHexChars (n : Nat) : List Char :=
  if n = 0 then ['0'] else toHexCharsAux 8 n

/-- Modelled from the Python stdlib: when the final colon-separated group of
an IPv6 literal contains a dot, it must parse as an IPv4 address and is
replaced by its two hextets. -/
def expandV4Tail (parts : List (List Char)) : Option (List (List Char)) :=
  match parts.getLast? with
  | none => some parts
  | some last =>
    if last.contains '.' then
      match parseIPv4 (String.mk last) with
      | some ip =>
        some (parts.dropLast ++
          [toHexChars (ip.a * 256 + ip.b), toHexChars (ip.c * 256 + ip.d)])
      | none => none
    else some parts

/-- Modelled from the Python stdlib: IPv6Address splitting of an optional
nonempty zone id off the first percent sign. -/
def splitZone (cs : List Char) : Option (List Char) :=
  if cs.contains '%' then
    let addr := cs.takeWhile (fun c => c != '%')
    let zone := (cs.dropWhile (fun c => c != '%')).drop 1
    if zone.isEmpty || zone.contains '%' then none else some addr
  else some cs

/-- Modelled from the Python stdlib: the IPv6Address constructor, returning
the 128-bit address value: split on colons, expand an embedded IPv4 tail,
allow one double-colon compression filling the missing zero hextets, and
require exactly eight hextets otherwise. -/
def parseIPv6 (s : String) : Option Nat :=
  match splitZone s.toList with
  | none => none
  | some cs =>
    let parts0 := splitOnChar ':' cs
    if parts0.length < 3 then none
    else
      match expandV4Tail parts0 with
      | none => none
      | some parts =>
        if 9 < parts.length then none
        else
          let inner := (parts.drop 1).dropLast
          let skips := inner.countP (fun p => p.isEmpty)
          if 1 < skips then none
          else if skips == 1 then
            let skipIndex := 1 + inner.findIdx (fun p => p.isEmpty)
            let partsHi0 := skipIndex
            let partsLo0 := parts.length - skipIndex - 1
            if (parts.headD []).isEmpty && partsHi0 != 1 then none
            else if (parts.getLastD []).isEmpty && partsLo0 != 1 then none
            else
              let partsHi := if (parts.headD []).isEmpty then 0 else partsHi0
              let partsLo := if (parts.getLastD []).isEmpty then 0 else partsLo0
              if 8 ≤ partsHi + partsLo then none
              else
                let skipped := 8 - (partsHi + partsLo)
                match hextetsVal (parts.take partsHi),
                  hextetsVal (parts.drop (parts.length - partsLo)) with
                | some hi, some lo =>
                  some (hi * 2 ^ (16 * (skipped + partsLo)) + lo)
                | _, _ => none
          else
            if parts.length != 8 then none
            else hextetsVal parts

/-- Membership of a 128-bit address in a network given by its base address and
prefix length. -/
def inNet6 (n base plen : Nat) : Bool :=
  base ≤ n && n < base + 2 ^ (128 - plen)

/-- Modelled from the Python stdlib: IPv6Address.is_loopback (the address
::1). -/
def ip6Loopback (n : Nat) : Bool :=
  n == 1

/-- Modelled from the Python stdlib: IPv6Address.is_link_local (fe80::/10). -/
def ip6LinkLocal (n : Nat) : Bool :=
  inNet6 n (0xfe80 * 2 ^ 112) 10

/-- Modelled from the Python stdlib: IPv6Address.is_private, the union of the
private-use and reserved networks the stdlib lists. -/
def ip6Private (n : Nat) : Bool :=
  inNet6 n 1 128
  || inNet6 n 0 128
  || inNet6 n (0xffff * 2 ^ 32) 96
  || inNet6 n (0x100 * 2 ^ 112) 64
  || inNet6 n (0x2001 * 2 ^ 112) 23
  || inNet6 n (0x2001 * 2 ^ 112 + 0x2 * 2 ^ 96) 48
  || inNet6 n (0x2001 * 2 ^ 112 + 0xdb8 * 2 ^ 96) 32
  || inNet6 n (0x2001 * 2 ^ 112 + 0x10 * 2 ^ 96) 28
  || inNet6 n (0xfc00 * 2 ^ 112) 7
  || inNet6 n (0xfe80 * 2 ^ 112) 10

/-- Modelled from the Python stdlib: ipaddress.ip_address, which tries the
IPv4 constructor first and the IPv6 constructor second. -/
inductive IPAddr where
  | v4 (ip : IPv4)
  | v6 (n : Nat)
deriving Repr, DecidableEq

/-- Parse a hostname as an IP address the way ipaddress.ip_address does;
none models the ValueError the source swallows for ordinary DNS names. -/
def parseIP (s : String) : Option IPAddr :=
  match parseIPv4 s with
  | some ip => some (IPAddr.v4 ip)
  | none => (parseIPv6 s).map IPAddr.v6

/-- Whether a parsed IP address is private, loopback or link-local, the
disjunction _is_safe_url tests. -/
def ipBad : IPAddr → Bool
  | IPAddr.v4 ip => ipPrivate ip || ipLoopback ip || ipLinkLocal ip
  | IPAddr.v6 n => ip6Private n || ip6Loopback n || ip6LinkLocal n

/-- Embedding of WebBrowser._is_safe_url on the parsed components: reject a
missing scheme or authority, a scheme other than http or https, the literal
hostnames localhost, 127.0.0.1, 0.0.0.0 and ::1, and an IP-literal hostname in
a private, loopback or link-local range (web_browser.py lines 347-374). -/
def isSafeParts (parsed : UrlParts) : Bool :=
  if parsed.scheme == "" || parsed.netloc == "" then false
  else if !(parsed.scheme == "http" || parsed.scheme == "https") then false
  else
    match parsed.hostname with
    | none => true
    | some h =>
      if h == "localhost" || h == "127.0.0.1" || h == "0.0.0.0" || h == "::1" then false
      else
        match parseIP h with
        | some ip => !(ipBad ip)
        | none => true

/-- Embedding of WebBrowser._is_safe_url: parse the URL string, then apply the
component checks. -/
def isSafeUrl (url : String) : Bool :=
  isSafeParts (urlparse url)

/-- The condition of claim C1 on the parsed components: missing scheme or
authority, a non-http(s) scheme, a blocked literal hostname, or an IP-literal
hostname in a private, loopback or link-local range. -/
def claimedUnsafeParts (parsed : UrlParts) : Bool :=
  parsed.scheme == "" || parsed.netloc == ""
  || !(parsed.scheme == "http" || parsed.scheme == "https")
  || (match parsed.hostname with
      | none => false
      | some h =>
        h == "localhost" || h == "127.0.0.1" || h == "0.0.0.0" || h == "::1"
        || (match parseIP h with
            | some ip => ipBad ip
            | none => false))

/-- The condition of claim C1 on the URL string. -/
def claimedUnsafe (url : String) : Bool :=
  claimedUnsafeParts (urlparse url)

/-- Substring test, modelling the Python `in` operator on strings for a
non-empty needle. -/
def strContains (s pat : String) : Bool :=
  listContainsSub pat.toList s.toList

/-- Association-list lookup, modelling Python dict indexing. -/
def dictLookup {β : Type} (d : List (String × β)) (k : String) : Option β :=
  match d with
  | [] => none
  | (k', v) :: rest => if k' == k then some v else dictLookup rest k

/-- Association-list write, modelling Python dict assignment: the new binding
shadows any earlier one under lookup. -/
def dictInsert {β : Type} (d : List (String × β)) (k : String) (v : β) :
    List (String × β) :=
  (k, v) :: d

/-- An anchor element carrying its stripped text and its href attribute
(BeautifulSoup find_all with href=True yields exactly the anchors that have
one; a missing attribute reads as the empty string via get). -/
structure Anchor where
  text : String
  href : String
deriving Repr, DecidableEq

/-- One entry of the links list fetch_page builds. -/
structure LinkEntry where
  text : String
  url : String
deriving Repr, DecidableEq

/-- The content of a fetched page, as the BeautifulSoup layer exposes it to
fetch_page: the plain text remaining after script, style, nav, footer and
header elements are removed and blank runs collapsed, the anchors that carry
an href, and the byte length of the raw html. -/
structure Page where
  extractedText : String
  anchors : List Anchor
  contentLength : Nat
deriving Repr, DecidableEq

/-- Outcome of one HTTP GET issued by fetch_page: a timeout, another
connection-level exception, or a response with a status and page content. -/
inductive FetchOutcome where
  | timeout
  | netError (msg : String)
  | response (status : Nat) (page : Page)
deriving Repr, DecidableEq

/-- The snapshot dictionary fetch_page stores in self._visited_urls. -/
structure PageData where
  url : String
  status : Nat
  contentLength : Nat
  text : Option String
  links : Option (List LinkEntry)
deriving Repr, DecidableEq

/-- The dictionary fetch_page returns; absent keys are none. -/
structure FetchResult where
  success : Bool
  error : Option String := none
  url : Option String := none
  status : Option Nat := none
  contentLength : Option Nat := none
  text : Option String := none
  links : Option (List LinkEntry) := none
  cached : Option Bool := none
deriving Repr, DecidableEq

/-- Embedding of WebBrowser.fetch_page (web_browser.py lines 264-345). The
network is the oracle net; resolve stands for urllib.parse.urljoin; the result
triple is the returned dictionary, the updated visited cache and the list of
URLs for which an HTTP GET was issued. -/
def fetchPage (enabled : Bool) (net : String → FetchOutcome)
    (resolve : String → String → String)
    (visited : List (String × PageData)) (url : String)
    (extractText extractLinks useCache : Bool) :
    FetchResult × List (String × PageData) × List String :=
  if !enabled then
    ({ success := false, error := some "网络浏览功能未启用" }, visited, [])
  else if !isSafeUrl url then
    ({ success := false, error := some "URL不安全或格式无效" }, visited, [])
  else
    match useCache, dictLookup visited url with
    | true, some d =>
      ({ success := true, url := some d.url, status := some d.status,
         contentLength := some d.contentLength, text := d.text, links := d.links,
         cached := some true }, visited, [])
    | _, _ =>
      match net url with
      | FetchOutcome.timeout =>
        ({ success := false, error := some "请求超时", url := some url }, visited, [url])
      | FetchOutcome.netError msg =>
        ({ success := false, error := some msg, url := some url }, visited, [url])
      | FetchOutcome.response status page =>
        if status != 200 then
          ({ success := false, error := some ("HTTP错误: " ++ toString status),
             url := some url }, visited, [url])
        else
          let data : PageData :=
            { url := url, status := status, contentLength := page.contentLength,
              text := if extractText then some page.extractedText else none,
              links :=
                if extractLinks then
                  some ((page.anchors.map
                    (fun a => LinkEntry.mk a.text (resolve url a.href))).filter
                    (fun l => isSafeUrl l.url))
                else none }
          ({ success := true, url := some data.url, status := some data.status,
             contentLength := some data.contentLength, text := data.text,
             links := data.links }, dictInsert visited url data, [url])

/-- One parsed search result (title, url, description, source engine tag). -/
structure SearchResult where
  title : String
  url : String
  description : String
  source : String
deriving Repr, DecidableEq

/-- One .result block of a Baidu result page as _parse_baidu_results reads it:
the optional title anchor (its stripped text and href) and the optional
description text. -/
structure BaiduItem where
  titleElem : Option Anchor
  descText : Option String
deriving Repr, DecidableEq

/-- One div.g block of a Google result page as _parse_google_results reads it:
the optional h3 text, the optional first anchor's href, and the optional
description text. -/
structure GoogleItem where
  titleText : Option String
  linkHref : Option String
  descText : Option String
deriving Repr, DecidableEq

/-- One .b_algo block of a Bing result page as _parse_bing_results reads it. -/
structure BingItem where
  titleElem : Option Anchor
  descText : Option String
deriving Repr, DecidableEq

/-- A search-engine result page as the four parsing strategies see it. -/
structure SearchPage where
  baiduItems : List BaiduItem
  googleItems : List GoogleItem
  bingItems : List BingItem
  anchors : List Anchor
deriving Repr, DecidableEq

/-- Embedding of WebBrowser._parse_baidu_results (lines 153-180): walk the
first max_results blocks, skip the ones without a title anchor. -/
def parseBaiduResults (items : List BaiduItem) (maxResults : Nat) :
    List SearchResult :=
  (items.take maxResults).filterMap fun it =>
    it.titleElem.map fun t =>
      { title := t.text, url := t.href, description := it.descText.getD "",
        source := "baidu" }

/-- Embedding of WebBrowser._parse_google_results (lines 182-210): walk the
first max_results blocks, skip the ones missing the title or the link. -/
def parseGoogleResults (items : List GoogleItem) (maxResults : Nat) :
    List SearchResult :=
  (items.take maxResults).filterMap fun it =>
    match it.titleText, it.linkHref with
    | some t, some h =>
      some { title := t, url := h, description := it.descText.getD "",
             source := "google" }
    | _, _ => none

/-- Embedding of WebBrowser._parse_bing_results (lines 212-239). -/
def parseBingResults (items : List BingItem) (maxResults : Nat) :
    List SearchResult :=
  (items.take maxResults).filterMap fun it =>
    it.titleElem.map fun t =>
      { title := t.text, url := t.href, description := it.descText.getD "",
        source := "bing" }

/-- Hosts the generic strategy excludes from candidate links. -/
def genericExcluded (href : String) : Bool :=
  strContains href "google.com" || strContains href "bing.com"
  || strContains href "baidu.com"

/-- Embedding of WebBrowser._parse_generic_results (lines 241-262): scan the
first 2 times max_results anchors, keep absolute non-search-engine links whose
visible text is longer than three characters, stop at max_results. -/
def parseGenericResults (anchors : List Anchor) (maxResults : Nat) :
    List SearchResult :=
  (((anchors.take (maxResults * 2)).filter fun a =>
      strStartsWith a.href "http" && !genericExcluded a.href
      && a.text != "" && 3 < a.text.length).map fun a =>
    { title := a.text, url := a.href, description := "", source := "generic" }).take
    maxResults

/-- The name of the parsing strategy the dispatch in _fetch_search_results
(lines 133-141) selects for an engine. -/
def strategyName (engine : String) : String :=
  if engine == "baidu" then "baidu"
  else if engine == "google" then "google"
  else if engine == "bing" then "bing"
  else "generic"

/-- The strategy dispatch of _fetch_search_results (lines 133-141). -/
def pickParse (engine : String) (page : SearchPage) (maxResults : Nat) :
    List SearchResult :=
  if engine == "baidu" then parseBaiduResults page.baiduItems maxResults
  else if engine == "google" then parseGoogleResults page.googleItems maxResults
  else if engine == "bing" then parseBingResults page.bingItems maxResults
  else parseGenericResults page.anchors maxResults

/-- Outcome of one retry attempt of _fetch_search_results: an exception raised
inside the attempt (connection failure or timeout, both caught by the per
attempt handler), or an HTTP response carrying a status and a result page. -/
inductive SearchOutcome where
  | raise (msg : String)
  | response (status : Nat) (page : SearchPage)
deriving Repr, DecidableEq

/-- An observable step of the engine: an HTTP GET for a URL, a suspension in
milliseconds, or a parser-strategy invocation. -/
inductive Ev where
  | get (url : String)
  | sleep (ms : Nat)
  | parse (strategy : String)
deriving Repr, DecidableEq

/-- Whether an attempt outcome fails to yield results: it raised, its status
is not 200, or its parse came back empty. -/
def attemptFails (engine : String) (maxResults : Nat) (o : SearchOutcome) : Bool :=
  match o with
  | SearchOutcome.raise _ => true
  | SearchOutcome.response status page =>
    status != 200 || (pickParse engine page maxResults).isEmpty

/-- Embedding of the retry loop of WebBrowser._fetch_search_results
(web_browser.py lines 119-149). The list argument carries the attempt indices
still to run, acc is the current value of the results variable (reassigned by
every 200-status parse), and the trace records GETs, backoff sleeps (only the
exception handler sleeps, when further attempts remain) and parser runs. -/
def runAttempts (outcomes : Nat → SearchOutcome) (engine url : String)
    (maxResults maxRetries : Nat) :
    List Nat → List SearchResult → List SearchResult × List Ev
  | [], acc => (acc, [])
  | attempt :: rest, acc =>
    match outcomes attempt with
    | SearchOutcome.raise _ =>
      let sleeps :=
        if attempt < maxRetries - 1 then [Ev.sleep (1000 * (attempt + 1))] else []
      let r := runAttempts outcomes engine url maxResults maxRetries rest acc
      (r.1, Ev.get url :: (sleeps ++ r.2))
    | SearchOutcome.response status page =>
      if status != 200 then
        let r := runAttempts outcomes engine url maxResults maxRetries rest acc
        (r.1, Ev.get url :: r.2)
      else
        let parsed := pickParse engine page maxResults
        if parsed.isEmpty then
          let r := runAttempts outcomes engine url maxResults maxRetries rest parsed
          (r.1, Ev.get url :: Ev.parse (strategyName engine) :: r.2)
        else
          (parsed, [Ev.get url, Ev.parse (strategyName engine)])

/-- Embedding of WebBrowser._fetch_search_results (lines 110-151): run the
retry loop over range(max_retries) and truncate the final results variable to
max_results. -/
def fetchSearchResults (outcomes : Nat → SearchOutcome) (url engine : String)
    (maxResults maxRetries : Nat) : List SearchResult × List Ev :=
  let r := runAttempts outcomes engine url maxResults maxRetries
    (List.range maxRetries) []
  (r.1.take maxResults, r.2)

/-- The configuration the WebBrowser constructor reads: the web_browsing
capability flag, advanced.max_retries, and the content-filter settings the
SecurityManager consults. -/
structure Config where
  enabled : Bool := true
  maxRetries : Nat := 3
  contentFilterEnabled : Bool := false
  blockedKeywords : List String := []
deriving Repr, DecidableEq

/-- Embedding of SecurityManager.check_content_safety
(src/utils/security.py lines 78-89): pass everything when the filter is
disabled, otherwise reject content containing a blocked keyword, case
insensitively. -/
def checkContentSafety (cfg : Config) (content : String) : Bool × String :=
  if !cfg.contentFilterEnabled then (true, "")
  else
    match cfg.blockedKeywords.find? (fun kw => strContains (lowerStr content) (lowerStr kw)) with
    | some kw => (false, "内容包含违禁关键词: " ++ kw)
    | none => (true, "")

/-- The keys of WebBrowser.SEARCH_ENGINES. -/
def searchEngineNames : List String :=
  ["google", "bing", "baidu", "duckduckgo"]

/-- The engine normalization of search (lines 78-79): unknown engines fall
back to baidu. -/
def normalizeEngine (engine : String) : String :=
  if searchEngineNames.contains engine then engine else "baidu"

/-- The search URL built from the engine template with spaces in the query
replaced by plus signs (lines 81-83). -/
def buildSearchUrl (engine query : String) : String :=
  let q := String.mk (query.toList.map (fun c => if c == ' ' then '+' else c))
  if engine == "google" then "https://www.google.com/search?q=" ++ q
  else if engine == "bing" then "https://www.bing.com/search?q=" ++ q
  else if engine == "duckduckgo" then "https://duckduckgo.com/?q=" ++ q
  else "https://www.baidu.com/s?wd=" ++ q

/-- The dictionary search returns; absent keys are none. -/
structure SearchResponse where
  success : Bool
  error : Option String := none
  reason : Option String := none
  results : Option (List SearchResult) := none
  query : Option String := none
  engine : Option String := none
  cached : Option Bool := none
deriving Repr, DecidableEq

/-- Embedding of WebBrowser.search (web_browser.py lines 50-108): capability
check, content-safety check, cache lookup keyed by the original engine and
query, then the live fetch, cache write and success response. The except
branch of search is unreachable here because the retry loop already catches
every per-attempt exception. The triple is the returned dictionary, the
updated search cache and the event trace. -/
def search (cfg : Config) (outcomes : Nat → SearchOutcome)
    (cache : List (String × List SearchResult))
    (query engine : String) (maxResults : Nat) (useCache : Bool) :
    SearchResponse × List (String × List SearchResult) × List Ev :=
  if !cfg.enabled then
    ({ success := false, error := some "网络浏览功能未启用" }, cache, [])
  else
    let safety := checkContentSafety cfg query
    if !safety.1 then
      ({ success := false, error := some "内容安全检查失败",
         reason := some safety.2 }, cache, [])
    else
      let cacheKey := engine ++ ":" ++ query
      match useCache, dictLookup cache cacheKey with
      | true, some rs =>
        ({ success := true, results := some rs, cached := some true }, cache, [])
      | _, _ =>
        let engine' := normalizeEngine engine
        let url := buildSearchUrl engine' query
        let r := fetchSearchResults outcomes url engine' maxResults cfg.maxRetries
        ({ success := true, results := some r.1, query := some query,
           engine := some engine' }, dictInsert cache cacheKey r.1, r.2)

/-- One entry of the detailed_info list collect_information builds
(web_browser.py lines 406-412). -/
structure CollectedInfo where
  sourceTitle : String
  sourceUrl : String
  sourceDescription : String
  content : String
  contentLength : Nat
deriving Repr, DecidableEq

/-- The dictionary collect_information returns; absent keys are none. The
wall-clock collection_time string is not modelled. -/
structure CollectResult where
  success : Bool
  error : Option String := none
  reason : Option String := none
  query : Option String := none
  summary : Option String := none
  sources : Option (List String) := none
  detailedInfo : Option (List CollectedInfo) := none
deriving Repr, DecidableEq

/-- Decimal rendering of a number with a comma every three digits, modelling
the Python format specifier with a comma (line 472). -/
def groupRev : List Char → List Char
  | a :: b :: c :: rest =>
    match rest with
    | [] => [a, b, c]
    | _ => a :: b :: c :: ',' :: groupRev rest
  | l => l

/-- Render a Nat with thousands separators. -/
def commaGroup (n : Nat) : String :=
  String.mk ((groupRev (toString n).toList.reverse).reverse)

/-- The three summary lines for one collected source (lines 456-465): the
numbered title, the URL line, and the description truncated to 200 characters
with a trailing ellipsis when the truncation was at its limit. -/
def summaryEntry (i : Nat) (info : CollectedInfo) : List String :=
  let desc := info.sourceDescription.take 200
  [toString i ++ ". **" ++ info.sourceTitle ++ "**",
   "   - URL: " ++ info.sourceUrl,
   "   - 描述: " ++ desc ++ (if 200 ≤ desc.length then "..." else "")]

/-- Embedding of WebBrowser._summarize_collected_info (lines 439-475). -/
def summarizeCollectedInfo (infoList : List CollectedInfo) (query : String) :
    String :=
  if infoList.length == 0 then
    "未找到关于 \x27" ++ query ++ "\x27 的相关信息。"
  else
    let head := ["## 信息收集摘要", "**查询**: " ++ query,
      "**来源数量**: " ++ toString infoList.length, "", "### 主要信息来源:"]
    let entries := (infoList.enum.map (fun p => summaryEntry (p.1 + 1) p.2)).flatten
    let total := (infoList.map (fun i => i.contentLength)).sum
    let tail := ["", "### 统计信息",
      "- 总内容长度: " ++ commaGroup total ++ " 字符"]
    String.intercalate "\n" (head ++ entries ++ tail)

/-- The mutable state of one WebBrowser instance: the visited-page cache and
the search cache. -/
structure BrowserState where
  visited : List (String × PageData)
  searchCache : List (String × List SearchResult)
deriving Repr, DecidableEq

/-- The detailed_info entry built from a search result and a successful page
fetch (lines 406-412). -/
def mkCollected (r : SearchResult) (pr : FetchResult) : CollectedInfo :=
  { sourceTitle := r.title, sourceUrl := r.url, sourceDescription := r.description,
    content := pr.text.getD "", contentLength := pr.contentLength.getD 0 }

/-- Embedding of the per-result loop of collect_information (lines 398-415):
skip results with an empty URL, fetch each page with text extraction, keep the
successful ones, and pace half a second after every non-skipped fetch. -/
def collectLoop (cfg : Config) (net : String → FetchOutcome)
    (resolve : String → String → String) :
    List SearchResult → List (String × PageData) →
    List CollectedInfo × List (String × PageData) × List Ev
  | [], visited => ([], visited, [])
  | r :: rest, visited =>
    if r.url == "" then collectLoop cfg net resolve rest visited
    else
      let f := fetchPage cfg.enabled net resolve visited r.url true false true
      let tail := collectLoop cfg net resolve rest f.2.1
      ((if f.1.success then mkCollected r f.1 :: tail.1 else tail.1),
       tail.2.1, (f.2.2.map Ev.get) ++ [Ev.sleep 500] ++ tail.2.2)

/-- Embedding of WebBrowser.collect_information (web_browser.py lines
376-437): search with the default engine, propagate a search failure,
otherwise fetch the top max_pages result pages and build the summary. The
outer except branch is unreachable here because search and fetch_page return
their failures as values. -/
def collectInformation (cfg : Config) (outcomes : Nat → SearchOutcome)
    (net : String → FetchOutcome) (resolve : String → String → String)
    (st : BrowserState) (query : String) (maxPages : Nat) :
    CollectResult × BrowserState × List Ev :=
  if !cfg.enabled then
    ({ success := false, error := some "网络浏览功能未启用" }, st, [])
  else
    let s := search cfg outcomes st.searchCache query "baidu" maxPages true
    if !s.1.success then
      ({ success := false, error := s.1.error, reason := s.1.reason },
       { st with searchCache := s.2.1 }, s.2.2)
    else
      let searchResults := s.1.results.getD []
      let l := collectLoop cfg net resolve (searchResults.take maxPages) st.visited
      ({ success := true, query := some query,
         summary := some (summarizeCollectedInfo l.1 query),
         sources := some (l.1.map (fun i => i.sourceUrl)),
         detailedInfo := some l.1 },
       { visited := l.2.1, searchCache := s.2.1 }, s.2.2 ++ l.2.2)

/-- The dictionary search_and_research returns; absent keys are none. -/
structure ResearchResult where
  success : Bool
  error : Option String := none
  originalQuery : Option String := none
  iterations : Option Nat := none
  results : Option (List CollectResult) := none
  totalSources : Option Nat := none
deriving Repr, DecidableEq

/-- Embedding of the round loop of WebBrowser.search_and_research
(web_browser.py lines 489-504): fuel counts the remaining iterations, i is the
Python loop index, and current_query is threaded exactly as the source does,
being reset to the original query before every non-final round. Besides the
round results the loop reports the query text each executed round passed to
collect_information. -/
def researchRounds (cfg : Config) (outcomes : Nat → SearchOutcome)
    (net : String → FetchOutcome) (resolve : String → String → String)
    (query : String) (numIterations : Nat) :
    Nat → Nat → String → BrowserState →
    List CollectResult × List String × BrowserState × List Ev
  | 0, _, _, st => ([], [], st, [])
  | fuel + 1, i, currentQuery, st =>
    let c := collectInformation cfg outcomes net resolve st currentQuery 3
    if !c.1.success then ([], [currentQuery], c.2.1, c.2.2)
    else
      let nextQuery := if i < numIterations - 1 then query else currentQuery
      let rest := researchRounds cfg outcomes net resolve query numIterations
        fuel (i + 1) nextQuery c.2.1
      (c.1 :: rest.1, currentQuery :: rest.2.1, rest.2.2.1,
       c.2.2 ++ [Ev.sleep 1000] ++ rest.2.2.2)

/-- Embedding of WebBrowser.search_and_research (web_browser.py lines
477-512). The quadruple is the returned dictionary, the list of query texts
passed to collect_information round by round, the final browser state, and the
event trace. -/
def searchAndResearch (cfg : Config) (outcomes : Nat → SearchOutcome)
    (net : String → FetchOutcome) (resolve : String → String → String)
    (st : BrowserState) (query : String) (numIterations : Nat) :
    ResearchResult × List String × BrowserState × List Ev :=
  if !cfg.enabled then
    ({ success := false, error := some "网络浏览功能未启用" }, [], st, [])
  else
    let r := researchRounds cfg outcomes net resolve query numIterations
      numIterations 0 query st
    ({ success := true, originalQuery := some query,
       iterations := some r.1.length, results := some r.1,
       totalSources :=
         some ((r.1.map (fun c => (c.detailedInfo.getD []).length)).sum) },
     r.2.1, r.2.2.1, r.2.2.2)

/-! Concrete instances used by counterexamples and witnesses. -/

/-- A network oracle on which every search attempt raises. -/
def failingOutcomes : Nat → SearchOutcome :=
  fun _ => SearchOutcome.raise "connection refused"

/-- A page-fetch oracle on which every request times out. -/
def timeoutNet : String → FetchOutcome :=
  fun _ => FetchOutcome.timeout

/-- A concrete stand-in for urljoin: absolute hrefs pass through, relative
ones are appended to the base. -/
def simpleResolve : String → String → String :=
  fun base href => if strStartsWith href "http" then href else base ++ href

/-- A Baidu result block with the given title. -/
def sampleBaiduItem (t : String) : BaiduItem :=
  { titleElem := some ⟨t, "http://results.example/" ++ t⟩, descText := some "d" }

/-- A result page whose Baidu strategy finds five entries. -/
def fiveItemPage : SearchPage :=
  { baiduItems := [sampleBaiduItem "r1", sampleBaiduItem "r2", sampleBaiduItem "r3",
      sampleBaiduItem "r4", sampleBaiduItem "r5"],
    googleItems := [], bingItems := [], anchors := [] }

/-- An oracle always answering 200 with the five-entry page. -/
def fiveItemOutcomes : Nat → SearchOutcome :=
  fun _ => SearchOutcome.response 200 fiveItemPage

/-- The oracle of the C5 counterexample: a 500 status on the first attempt,
exceptions afterwards. -/
def c5Outcomes : Nat → SearchOutcome :=
  fun n => if n == 0 then SearchOutcome.response 500 fiveItemPage
    else SearchOutcome.raise "boom"

/-- A result page on which the Baidu strategy finds nothing but the generic
strategy would find one entry. -/
def emptyBaiduPage : SearchPage :=
  { baiduItems := [], googleItems := [], bingItems := [],
    anchors := [⟨"Example site", "http://example.com/a"⟩] }

/-- An oracle always answering 200 with the empty-Baidu page. -/
def emptyBaiduOutcomes : Nat → SearchOutcome :=
  fun _ => SearchOutcome.response 200 emptyBaiduPage

/-- A fixed page for the fetch_page scenarios. -/
def helloPage : Page :=
  { extractedText := "hello world", anchors := [], contentLength := 42 }

/-- An oracle always answering 200 with the hello page. -/
def helloNet : String → FetchOutcome :=
  fun _ => FetchOutcome.response 200 helloPage

/-- A page with one relative link and one link into a loopback address. -/
def twoAnchorPage : Page :=
  { extractedText := "t",
    anchors := [⟨"ok", "/page"⟩, ⟨"bad", "http://127.0.0.1/x"⟩],
    contentLength := 9 }

/-- An oracle always answering 200 with the two-anchor page. -/
def twoAnchorNet : String → FetchOutcome :=
  fun _ => FetchOutcome.response 200 twoAnchorPage

/-- The predicate selecting HTTP GET events of a trace. -/
def isGetEv : Ev → Bool
  | Ev.get _ => true
  | _ => false

/-! Helper lemmas about the safety validator and the retry loop. -/

theorem claimedUnsafe_rejects (p : UrlParts) (h : claimedUnsafeParts p = true) :
    isSafeParts p = false := by
  unfold claimedUnsafeParts at h
  unfold isSafeParts
  rcases p with ⟨s, nl, ho⟩
  simp only at h ⊢
  cases hc1 : (s == "" || nl == "") with
  | true => simp [hc1]
  | false =>
    rw [hc1] at h
    cases hc2 : (s == "http" || s == "https") with
    | false => simp [hc1, hc2]
    | true =>
      rw [hc2] at h
      simp only [Bool.false_or, Bool.not_true, Bool.false_or] at h
      rw [if_neg (by simp [hc1]), if_neg (by simp [hc2])]
      cases ho with
      | none => simp at h
      | some hst =>
        simp only at h ⊢
        cases hc3 : (hst == "localhost" || hst == "127.0.0.1" || hst == "0.0.0.0"
            || hst == "::1") with
        | true => simp [hc3]
        | false =>
          rw [hc3] at h
          simp only [Bool.false_or] at h
          rw [if_neg (by simp [hc3])]
          cases hip : parseIP hst with
          | none => rw [hip] at h; simp at h
          | some ip =>
            rw [hip] at h
            simp only at h ⊢
            simp [h]

/-- When no attempt of the retry loop yields results, the loop leaves the
results variable empty whenever it starts empty. -/
theorem runAttempts_fail_nil (outcomes : Nat → SearchOutcome) (engine url : String)
    (n mr : Nat) (l : List Nat)
    (hfail : ∀ a ∈ l, attemptFails engine n (outcomes a) = true) :
    (runAttempts outcomes engine url n mr l []).1 = [] := by
  induction l with
  | nil => rfl
  | cons a rest ih =>
    have ha := hfail a (by simp)
    have hrest : ∀ b ∈ rest, attemptFails engine n (outcomes b) = true :=
      fun b hb => hfail b (by simp [hb])
    unfold attemptFails at ha
    cases ho : outcomes a with
    | raise m => simpa [runAttempts, ho] using ih hrest
    | response status page =>
      rw [ho] at ha
      simp only at ha
      cases hs : (status != 200) with
      | true => simpa [runAttempts, ho, hs] using ih hrest
      | false =>
        rw [hs] at ha
        simp only [Bool.false_or] at ha
        have hp : pickParse engine page n = [] := by
          simpa [List.isEmpty_iff] using ha
        simp only [runAttempts, ho, hs, hp]
        simpa [hp] using ih hrest

theorem runAttempts_gets_le (outcomes : Nat → SearchOutcome) (engine url : String)
    (n mr : Nat) (l : List Nat) (acc : List SearchResult) :
    ((runAttempts outcomes engine url n mr l acc).2.countP isGetEv) ≤ l.length := by
  induction l generalizing acc with
  | nil => simp [runAttempts]
  | cons a rest ih =>
    cases ho : outcomes a with
    | raise m =>
      have h0 : List.countP isGetEv
          (if a < mr - 1 then [Ev.sleep (1000 * (a + 1))] else []) = 0 := by
        split <;> rfl
      simp [runAttempts, ho, List.countP_cons, List.countP_append, h0, isGetEv]
      have := ih acc
      omega
    | response status page =>
      cases hs : (status != 200) with
      | true =>
        simp [runAttempts, ho, hs, List.countP_cons, isGetEv]
        have := ih acc
        omega
      | false =>
        cases he : (pickParse engine page n).isEmpty with
        | true =>
          simp [runAttempts, ho, hs, he, List.countP_cons, isGetEv]
          have := ih (pickParse engine page n)
          omega
        | false =>
          simp [runAttempts, ho, hs, he, List.countP_cons, List.countP_nil, isGetEv]

theorem runAttempts_sleep_spec (outcomes : Nat → SearchOutcome) (engine url : String)
    (n mr : Nat) (l : List Nat) (acc : List SearchResult) (ms : Nat)
    (hmem : Ev.sleep ms ∈ (runAttempts outcomes engine url n mr l acc).2) :
    ∃ k ∈ l, k < mr - 1 ∧ (∃ m, outcomes k = SearchOutcome.raise m) ∧
      ms = 1000 * (k + 1) := by
  induction l generalizing acc with
  | nil => simp [runAttempts] at hmem
  | cons a rest ih =>
    cases ho : outcomes a with
    | raise m =>
      by_cases hlt : a < mr - 1
      · simp [runAttempts, ho, if_pos hlt] at hmem
        rcases hmem with h1 | h2
        · exact ⟨a, by simp, hlt, ⟨m, ho⟩, h1⟩
        · obtain ⟨k, hk, hr⟩ := ih acc h2
          exact ⟨k, by simp [hk], hr⟩
      · simp [runAttempts, ho, if_neg hlt] at hmem
        obtain ⟨k, hk, hr⟩ := ih acc hmem
        exact ⟨k, by simp [hk], hr⟩
    | response status page =>
      cases hs : (status != 200) with
      | true =>
        simp [runAttempts, ho, hs] at hmem
        obtain ⟨k, hk, hr⟩ := ih acc hmem
        exact ⟨k, by simp [hk], hr⟩
      | false =>
        cases he : (pickParse engine page n).isEmpty with
        | true =>
          simp [runAttempts, ho, hs, he] at hmem
          obtain ⟨k, hk, hr⟩ := ih _ hmem
          exact ⟨k, by simp [hk], hr⟩
        | false =>
          simp [runAttempts, ho, hs, he] at hmem

theorem runAttempts_parse_spec (outcomes : Nat → SearchOutcome) (engine url : String)
    (n mr : Nat) (l : List Nat) (acc : List SearchResult) (s : String)
    (hmem : Ev.parse s ∈ (runAttempts outcomes engine url n mr l acc).2) :
    s = strategyName engine := by
  induction l generalizing acc with
  | nil => simp [runAttempts] at hmem
  | cons a rest ih =>
    cases ho : outcomes a with
    | raise m =>
      by_cases hlt : a < mr - 1
      · simp [runAttempts, ho, if_pos hlt] at hmem
        exact ih acc hmem
      · simp [runAttempts, ho, if_neg hlt] at hmem
        exact ih acc hmem
    | response status page =>
      cases hs : (status != 200) with
      | true =>
        simp [runAttempts, ho, hs] at hmem
        exact ih acc hmem
      | false =>
        cases he : (pickParse engine page n).isEmpty with
        | true =>
          simp [runAttempts, ho, hs, he] at hmem
          rcases hmem with h1 | h2
          · exact h1
          · exact ih _ h2
        | false =>
          simp [runAttempts, ho, hs, he] at hmem
          exact hmem

/-- A cache-missing search with caching requested takes the live path: it
fetches through the retry loop, stores the truncated results under the
engine-and-query key and reports query and engine in its response. -/
theorem search_live (cfg : Config) (outcomes : Nat → SearchOutcome)
    (cache : List (String × List SearchResult)) (query engine : String)
    (maxResults : Nat)
    (hen : cfg.enabled = true)
    (hcs : (checkContentSafety cfg query).1 = true)
    (hmiss : dictLookup cache (engine ++ ":" ++ query) = none) :
    search cfg outcomes cache query engine maxResults true =
      ({ success := true,
         results := some (fetchSearchResults outcomes
           (buildSearchUrl (normalizeEngine engine) query) (normalizeEngine engine)
           maxResults cfg.maxRetries).1,
         query := some query, engine := some (normalizeEngine engine) },
       dictInsert cache (engine ++ ":" ++ query)
         (fetchSearchResults outcomes (buildSearchUrl (normalizeEngine engine) query)
           (normalizeEngine engine) maxResults cfg.maxRetries).1,
       (fetchSearchResults outcomes (buildSearchUrl (normalizeEngine engine) query)
         (normalizeEngine engine) maxResults cfg.maxRetries).2) := by
  simp [search, hen, hcs, hmiss]

/-- A search whose key is cached returns the stored list with a cached flag,
leaves the cache unchanged and performs no observable step. -/
theorem search_cachehit (cfg : Config) (outcomes : Nat → SearchOutcome)
    (cache : List (String × List SearchResult)) (query engine : String)
    (maxResults : Nat) (rs : List SearchResult)
    (hen : cfg.enabled = true)
    (hcs : (checkContentSafety cfg query).1 = true)
    (hhit : dictLookup cache (engine ++ ":" ++ query) = some rs) :
    search cfg outcomes cache query engine maxResults true =
      ({ success := true, results := some rs, cached := some true }, cache, []) := by
  simp [search, hen, hcs, hhit]

/-- Looking up a key right after writing it yields the written value. -/
theorem dictLookup_insert {β : Type} (d : List (String × β)) (k : String) (v : β) :
    dictLookup (dictInsert d k v) k = some v := by
  simp [dictInsert, dictLookup]

/-! Claim theorems. -/

/-- Claim C1: every URL string whose scheme is not http or https, or that lacks a
scheme or an authority, or whose hostname is the literal localhost, 127.0.0.1,
0.0.0.0 or ::1, or whose hostname is an IPv4 or IPv6 literal in a private,
loopback or link-local range, is rejected by _is_safe_url, and fetch_page on
such a URL returns success false and issues no network call, for every network
oracle, cache state and flag combination. -/
theorem c1_unsafe_url_rejected (url : String) (h : claimedUnsafe url = true) :
    isSafeUrl url = false ∧
    ∀ (enabled : Bool) (net : String → FetchOutcome)
      (resolve : String → String → String)
      (visited : List (String × PageData)) (extractText extractLinks useCache : Bool),
      (fetchPage enabled net resolve visited url extractText extractLinks
        useCache).1.success = false ∧
      (fetchPage enabled net resolve visited url extractText extractLinks
        useCache).2.2 = [] := by
  have hs : isSafeUrl url = false := claimedUnsafe_rejects _ h
  refine ⟨hs, ?_⟩
  intro enabled net resolve visited et el uc
  cases enabled <;> simp [fetchPage, hs]

/-- Witness for claim C1 at the loopback URL of the spec scenario and at an
IPv6 link-local literal. -/
theorem c1_witness :
    claimedUnsafe "http://127.0.0.1/secret" = true ∧
    isSafeUrl "http://127.0.0.1/secret" = false ∧
    (fetchPage true timeoutNet simpleResolve [] "http://127.0.0.1/secret"
      true false true).1.success = false ∧
    (fetchPage true timeoutNet simpleResolve [] "http://127.0.0.1/secret"
      true false true).2.2 = ([] : List String) ∧
    claimedUnsafe "http://[fe80::1]/x" = true ∧
    isSafeUrl "http://[fe80::1]/x" = false ∧
    (fetchPage true timeoutNet simpleResolve [] "http://[fe80::1]/x"
      true false true).1.success = false ∧
    (fetchPage true timeoutNet simpleResolve [] "http://[fe80::1]/x"
      true false true).2.2 = ([] : List String) := by
  have h := c1_unsafe_url_rejected "http://127.0.0.1/secret" (by decide)
  have h6 := c1_unsafe_url_rejected "http://[fe80::1]/x" (by decide)
  exact ⟨by decide, h.1, (h.2 true timeoutNet simpleResolve [] true false true).1,
    (h.2 true timeoutNet simpleResolve [] true false true).2,
    by decide, h6.1, (h6.2 true timeoutNet simpleResolve [] true false true).1,
    (h6.2 true timeoutNet simpleResolve [] true false true).2⟩


/-- Claim C2, refuted at a concrete input: with every HTTP attempt raising a
connection error, search returns success true with an empty results list and
no error field, not the claimed failure result. -/
theorem c2_counterexample :
    (search {} failingOutcomes [] "weather" "baidu" 5 true).1.success = true ∧
    (search {} failingOutcomes [] "weather" "baidu" 5 true).1.error = none ∧
    (search {} failingOutcomes [] "weather" "baidu" 5 true).1.results = some [] := by
  decide

/-- Claim C2 as amended: when every underlying HTTP attempt of a live search
raises, the per-attempt handler swallows the failures and search returns
success true with an empty results list and neither error nor reason; the
claimed search-failed error result is not produced by attempt failures. -/
theorem c2_amended_all_attempts_fail (cfg : Config) (outcomes : Nat → SearchOutcome)
    (cache : List (String × List SearchResult)) (query engine : String)
    (maxResults : Nat)
    (hen : cfg.enabled = true)
    (hcs : (checkContentSafety cfg query).1 = true)
    (hmiss : dictLookup cache (engine ++ ":" ++ query) = none)
    (hfail : ∀ a, ∃ m, outcomes a = SearchOutcome.raise m) :
    (search cfg outcomes cache query engine maxResults true).1.success = true ∧
    (search cfg outcomes cache query engine maxResults true).1.results = some [] ∧
    (search cfg outcomes cache query engine maxResults true).1.error = none ∧
    (search cfg outcomes cache query engine maxResults true).1.reason = none := by
  have hnil : (runAttempts outcomes (normalizeEngine engine)
      (buildSearchUrl (normalizeEngine engine) query) maxResults cfg.maxRetries
      (List.range cfg.maxRetries) []).1 = [] := by
    refine runAttempts_fail_nil outcomes (normalizeEngine engine)
      (buildSearchUrl (normalizeEngine engine) query) maxResults cfg.maxRetries
      (List.range cfg.maxRetries) (fun a _ => ?_)
    obtain ⟨m, hm⟩ := hfail a
    simp [attemptFails, hm]
  rw [search_live cfg outcomes cache query engine maxResults hen hcs hmiss]
  simp [fetchSearchResults, hnil]

/-- Witness for the amended claim C2 at a concrete all-failures run. -/
theorem c2_witness :
    ({} : Config).enabled = true ∧
    (checkContentSafety {} "weather").1 = true ∧
    dictLookup ([] : List (String × List SearchResult)) ("baidu" ++ ":" ++ "weather") = none ∧
    (search {} failingOutcomes [] "weather" "baidu" 5 true).1.success = true ∧
    (search {} failingOutcomes [] "weather" "baidu" 5 true).1.results = some [] := by
  have h := c2_amended_all_attempts_fail {} failingOutcomes [] "weather" "baidu" 5
    rfl rfl rfl (fun a => ⟨"connection refused", rfl⟩)
  exact ⟨rfl, rfl, rfl, h.1, h.2.1⟩

/-- Claim C3, refuted at a concrete input: the second, cached response is not
the first response with only a cached flag added, because the cache hit drops
the query and engine keys the live response carried. -/
theorem c3_counterexample :
    (search {} failingOutcomes ((search {} failingOutcomes [] "q" "baidu" 5 true).2.1)
        "q" "baidu" 5 true).1 ≠
      { (search {} failingOutcomes [] "q" "baidu" 5 true).1 with cached := some true } ∧
    (search {} failingOutcomes [] "q" "baidu" 5 true).1.query = some "q" ∧
    (search {} failingOutcomes ((search {} failingOutcomes [] "q" "baidu" 5 true).2.1)
        "q" "baidu" 5 true).1.query = none := by
  decide

/-- Claim C3 as amended: two consecutive searches with the same engine and
query and caching on yield identical results lists and the second call
performs no observable network step, but the second response consists only of
success, the cached results and the cached flag, without the query and engine
keys of the live response. -/
theorem c3_amended_cache_idempotence (cfg : Config) (o1 o2 : Nat → SearchOutcome)
    (cache : List (String × List SearchResult)) (query engine : String)
    (n1 n2 : Nat)
    (hen : cfg.enabled = true)
    (hcs : (checkContentSafety cfg query).1 = true)
    (hmiss : dictLookup cache (engine ++ ":" ++ query) = none) :
    (search cfg o2 (search cfg o1 cache query engine n1 true).2.1
        query engine n2 true).1.results
      = (search cfg o1 cache query engine n1 true).1.results ∧
    (search cfg o2 (search cfg o1 cache query engine n1 true).2.1
        query engine n2 true).2.2 = [] ∧
    (search cfg o2 (search cfg o1 cache query engine n1 true).2.1
        query engine n2 true).1
      = { success := true,
          results := (search cfg o1 cache query engine n1 true).1.results,
          cached := some true } := by
  rw [search_live cfg o1 cache query engine n1 hen hcs hmiss]
  rw [search_cachehit cfg o2 _ query engine n2 _ hen hcs (dictLookup_insert _ _ _)]
  exact ⟨rfl, rfl, rfl⟩

/-- Witness for the amended claim C3 at a concrete five-result run. -/
theorem c3_witness :
    ({} : Config).enabled = true ∧
    (checkContentSafety {} "q").1 = true ∧
    dictLookup ([] : List (String × List SearchResult)) ("baidu" ++ ":" ++ "q") = none ∧
    (search {} failingOutcomes ((search {} fiveItemOutcomes [] "q" "baidu" 5 true).2.1)
        "q" "baidu" 3 true).1.results
      = (search {} fiveItemOutcomes [] "q" "baidu" 5 true).1.results ∧
    (search {} failingOutcomes ((search {} fiveItemOutcomes [] "q" "baidu" 5 true).2.1)
        "q" "baidu" 3 true).2.2 = [] := by
  have h := c3_amended_cache_idempotence {} fiveItemOutcomes failingOutcomes []
    "q" "baidu" 5 3 rfl rfl rfl
  exact ⟨rfl, rfl, rfl, h.1, h.2.1⟩

/-- Claim C4, refuted at a concrete input: a search with max_results three
served from a cache entry written by an earlier max_results-five search
returns five results, because the cache key ignores max_results. -/
theorem c4_counterexample :
    ((search {} fiveItemOutcomes ((search {} fiveItemOutcomes [] "q" "baidu" 5 true).2.1)
        "q" "baidu" 3 true).1.results.getD []).length = 5 ∧ ¬ (5 ≤ 3) := by
  decide

/-- Claim C4 as amended: every search that is not served from the cache
returns at most max_results results, whatever the parser found; cache hits
return the stored list unchanged, which may exceed the current bound. -/
theorem c4_amended_live_results_bounded (cfg : Config) (outcomes : Nat → SearchOutcome)
    (cache : List (String × List SearchResult)) (query engine : String)
    (maxResults : Nat) (useCache : Bool)
    (hmiss : useCache = false ∨ dictLookup cache (engine ++ ":" ++ query) = none) :
    ((search cfg outcomes cache query engine maxResults useCache).1.results.getD
      []).length ≤ maxResults := by
  cases hen : cfg.enabled with
  | false => simp [search, hen]
  | true =>
    cases hcs : (checkContentSafety cfg query).1 with
    | false => simp [search, hen, hcs]
    | true =>
      rcases hmiss with h | h
      · subst h
        simp [search, hen, hcs, fetchSearchResults, List.length_take]
      · cases useCache with
        | false => simp [search, hen, hcs, fetchSearchResults, List.length_take]
        | true => simp [search, hen, hcs, h, fetchSearchResults, List.length_take]

/-- Witness for the amended claim C4 at a concrete five-candidate page. -/
theorem c4_witness :
    (true = false ∨ dictLookup ([] : List (String × List SearchResult))
      ("baidu" ++ ":" ++ "q") = none) ∧
    ((search {} fiveItemOutcomes [] "q" "baidu" 3 true).1.results.getD []).length ≤ 3 := by
  exact ⟨Or.inr rfl,
    c4_amended_live_results_bounded {} fiveItemOutcomes [] "q" "baidu" 3 true (Or.inr rfl)⟩

/-- Claim C10: a live search whose attempts all fail stores the empty list
under its engine-and-query key, and every later search with the same engine
and query and caching on returns success true with the empty cached list and
performs no observable network step. -/
theorem c10_failed_search_caches_empty (cfg : Config) (o1 o2 : Nat → SearchOutcome)
    (cache : List (String × List SearchResult)) (query engine : String)
    (n1 n2 : Nat)
    (hen : cfg.enabled = true)
    (hcs : (checkContentSafety cfg query).1 = true)
    (hmiss : dictLookup cache (engine ++ ":" ++ query) = none)
    (hfail : ∀ a, attemptFails (normalizeEngine engine) n1 (o1 a) = true) :
    (search cfg o1 cache query engine n1 true).1.success = true ∧
    (search cfg o1 cache query engine n1 true).1.results = some [] ∧
    dictLookup (search cfg o1 cache query engine n1 true).2.1
      (engine ++ ":" ++ query) = some [] ∧
    (search cfg o2 (search cfg o1 cache query engine n1 true).2.1
        query engine n2 true).1
      = { success := true, results := some [], cached := some true } ∧
    (search cfg o2 (search cfg o1 cache query engine n1 true).2.1
        query engine n2 true).2.2 = [] := by
  have hnil : (runAttempts o1 (normalizeEngine engine)
      (buildSearchUrl (normalizeEngine engine) query) n1 cfg.maxRetries
      (List.range cfg.maxRetries) []).1 = [] :=
    runAttempts_fail_nil o1 (normalizeEngine engine)
      (buildSearchUrl (normalizeEngine engine) query) n1 cfg.maxRetries
      (List.range cfg.maxRetries) (fun a _ => hfail a)
  have hres : (fetchSearchResults o1 (buildSearchUrl (normalizeEngine engine) query)
      (normalizeEngine engine) n1 cfg.maxRetries).1 = [] := by
    simp [fetchSearchResults, hnil]
  rw [search_live cfg o1 cache query engine n1 hen hcs hmiss]
  simp only [hres]
  rw [search_cachehit cfg o2 _ query engine n2 _ hen hcs (dictLookup_insert _ _ _)]
  simp [dictLookup_insert]

/-- Witness for claim C10 at a concrete all-failures run. -/
theorem c10_witness :
    ({} : Config).enabled = true ∧
    (∀ a, attemptFails (normalizeEngine "baidu") 5 (failingOutcomes a) = true) ∧
    (search {} failingOutcomes [] "q2" "baidu" 5 true).1.results = some [] ∧
    (search {} failingOutcomes ((search {} failingOutcomes [] "q2" "baidu" 5 true).2.1)
        "q2" "baidu" 7 true).1
      = { success := true, results := some [], cached := some true } ∧
    (search {} failingOutcomes ((search {} failingOutcomes [] "q2" "baidu" 5 true).2.1)
        "q2" "baidu" 7 true).2.2 = [] := by
  have h := c10_failed_search_caches_empty {} failingOutcomes failingOutcomes []
    "q2" "baidu" 5 7 rfl rfl rfl (fun a => rfl)
  exact ⟨rfl, fun a => rfl, h.2.1, h.2.2.2.1, h.2.2.2.2⟩

/-- Claim C5, refuted at a concrete input: a first attempt failing with a 500
status is followed by the next attempt with no suspension at all, so the
backoff of 1000 milliseconds the claim requires between the first two attempts
is absent from the trace. -/
theorem c5_counterexample :
    (fetchSearchResults c5Outcomes "u" "baidu" 5 3).2 =
      [Ev.get "u", Ev.get "u", Ev.sleep 2000, Ev.get "u"] ∧
    Ev.sleep 1000 ∉ (fetchSearchResults c5Outcomes "u" "baidu" 5 3).2 := by
  decide

/-- Claim C5 as amended: a single search performs at most max_retries HTTP
GETs, and every suspension in its trace comes from an attempt that raised an
exception while further attempts remained, lasting 1000 milliseconds times the
one-based attempt index; failed attempts with a non-200 status or an empty
parse proceed to the next attempt without any delay. -/
theorem c5_amended_retry_bound_and_backoff (outcomes : Nat → SearchOutcome)
    (url engine : String) (maxResults maxRetries : Nat) :
    (fetchSearchResults outcomes url engine maxResults maxRetries).2.countP isGetEv
      ≤ maxRetries ∧
    ∀ ms, Ev.sleep ms ∈ (fetchSearchResults outcomes url engine maxResults maxRetries).2 →
      ∃ k, k < maxRetries - 1 ∧ (∃ m, outcomes k = SearchOutcome.raise m) ∧
        ms = 1000 * (k + 1) := by
  constructor
  · have h := runAttempts_gets_le outcomes engine url maxResults maxRetries
      (List.range maxRetries) []
    simpa [fetchSearchResults] using h
  · intro ms hmem
    have h := runAttempts_sleep_spec outcomes engine url maxResults maxRetries
      (List.range maxRetries) [] ms (by simpa [fetchSearchResults] using hmem)
    obtain ⟨k, _, h1, h2, h3⟩ := h
    exact ⟨k, h1, h2, h3⟩

/-- Claim C6, refuted at a concrete input: on 200 responses whose Baidu
strategy parses zero results while the generic strategy would find one, the
search retries the Baidu strategy and ends empty without ever invoking the
generic strategy. -/
theorem c6_counterexample :
    (fetchSearchResults emptyBaiduOutcomes "u" "baidu" 5 3).1 = [] ∧
    Ev.parse "generic" ∉ (fetchSearchResults emptyBaiduOutcomes "u" "baidu" 5 3).2 ∧
    parseGenericResults emptyBaiduPage.anchors 5 ≠ [] := by
  decide

/-- Claim C6 as amended: the generic strategy is selected only for engines
without a dedicated strategy; for baidu, google and bing an empty
engine-specific parse leads to another full retry and the generic strategy is
never attempted on the response. -/
theorem c6_amended_no_generic_fallback (outcomes : Nat → SearchOutcome)
    (url : String) (maxResults maxRetries : Nat) (engine : String)
    (h : engine = "baidu" ∨ engine = "google" ∨ engine = "bing") :
    Ev.parse "generic" ∉ (fetchSearchResults outcomes url engine maxResults maxRetries).2 := by
  intro hmem
  have hs := runAttempts_parse_spec outcomes engine url maxResults maxRetries
    (List.range maxRetries) [] "generic" (by simpa [fetchSearchResults] using hmem)
  rcases h with h | h | h <;> subst h <;> exact absurd hs (by decide)

/-- Witness for the amended claim C6 on the empty-Baidu page. -/
theorem c6_witness :
    ("baidu" = "baidu" ∨ "baidu" = "google" ∨ "baidu" = "bing") ∧
    Ev.parse "generic" ∉ (fetchSearchResults emptyBaiduOutcomes "u" "baidu" 5 3).2 := by
  exact ⟨Or.inl rfl,
    c6_amended_no_generic_fallback emptyBaiduOutcomes "u" 5 3 "baidu" (Or.inl rfl)⟩

/-- A cache-missing fetch_page call answered 200 builds the snapshot with
text and links present exactly when requested, writes it through the visited
cache and issues exactly one GET. -/
theorem fetchPage_live_response (net : String → FetchOutcome)
    (resolve : String → String → String) (visited : List (String × PageData))
    (url : String) (et el uc : Bool) (page : Page)
    (hsafe : isSafeUrl url = true)
    (hmiss : uc = false ∨ dictLookup visited url = none)
    (hnet : net url = FetchOutcome.response 200 page) :
    fetchPage true net resolve visited url et el uc =
      ({ success := true, url := some url, status := some 200,
         contentLength := some page.contentLength,
         text := if et then some page.extractedText else none,
         links :=
           if el then
             some ((page.anchors.map
               (fun a => LinkEntry.mk a.text (resolve url a.href))).filter
               (fun l => isSafeUrl l.url))
           else none },
       dictInsert visited url
         { url := url, status := 200, contentLength := page.contentLength,
           text := if et then some page.extractedText else none,
           links :=
             if el then
               some ((page.anchors.map
                 (fun a => LinkEntry.mk a.text (resolve url a.href))).filter
                 (fun l => isSafeUrl l.url))
             else none },
       [url]) := by
  rcases hmiss with h | h
  · subst h
    simp [fetchPage, hsafe, hnet]
  · cases uc with
    | false => simp [fetchPage, hsafe, hnet]
    | true => simp [fetchPage, hsafe, h, hnet]

/-- Claim C7, refuted at a concrete input: a second fetch_page call with
extract_text false served from the cache still carries the text field stored
by the first call, against the claimed if-and-only-if. -/
theorem c7_counterexample :
    (fetchPage true helloNet simpleResolve
      ((fetchPage true helloNet simpleResolve [] "http://example.com/"
        true false true).2.1)
      "http://example.com/" false false true).1.success = true ∧
    (fetchPage true helloNet simpleResolve
      ((fetchPage true helloNet simpleResolve [] "http://example.com/"
        true false true).2.1)
      "http://example.com/" false false true).1.cached = some true ∧
    (fetchPage true helloNet simpleResolve
      ((fetchPage true helloNet simpleResolve [] "http://example.com/"
        true false true).2.1)
      "http://example.com/" false false true).1.text = some "hello world" := by
  decide

/-- Claim C7 as amended: for every fetch_page success that is not served
from the cache, the text field is present exactly when extract_text was
requested and the links field exactly when extract_links was requested; cache
hits instead return the fields stored by the original caching call, ignoring
the current flags. -/
theorem c7_amended_live_fields_iff (enabled : Bool) (net : String → FetchOutcome)
    (resolve : String → String → String) (visited : List (String × PageData))
    (url : String) (extractText extractLinks useCache : Bool)
    (hmiss : useCache = false ∨ dictLookup visited url = none)
    (hsucc : (fetchPage enabled net resolve visited url extractText extractLinks
      useCache).1.success = true) :
    ((fetchPage enabled net resolve visited url extractText extractLinks
      useCache).1.text ≠ none ↔ extractText = true) ∧
    ((fetchPage enabled net resolve visited url extractText extractLinks
      useCache).1.links ≠ none ↔ extractLinks = true) := by
  cases hen : enabled with
  | false => rw [hen] at hsucc; simp [fetchPage] at hsucc
  | true =>
    subst hen
    cases hsafe : isSafeUrl url with
    | false => simp [fetchPage, hsafe] at hsucc
    | true =>
      cases hnet : net url with
      | timeout =>
        rcases hmiss with h | h
        · subst h; simp [fetchPage, hsafe, hnet] at hsucc
        · cases useCache with
          | false => simp [fetchPage, hsafe, hnet] at hsucc
          | true => simp [fetchPage, hsafe, h, hnet] at hsucc
      | netError m =>
        rcases hmiss with h | h
        · subst h; simp [fetchPage, hsafe, hnet] at hsucc
        · cases useCache with
          | false => simp [fetchPage, hsafe, hnet] at hsucc
          | true => simp [fetchPage, hsafe, h, hnet] at hsucc
      | response status page =>
        by_cases hst : status = 200
        · subst hst
          rw [fetchPage_live_response net resolve visited url extractText
            extractLinks useCache page hsafe hmiss hnet]
          cases extractText <;> cases extractLinks <;> simp
        · have hst' : (status != 200) = true := by simpa using hst
          rcases hmiss with h | h
          · subst h; simp [fetchPage, hsafe, hnet, hst'] at hsucc
          · cases useCache with
            | false => simp [fetchPage, hsafe, hnet, hst'] at hsucc
            | true => simp [fetchPage, hsafe, h, hnet, hst'] at hsucc

/-- Witness for the amended claim C7 at a concrete live fetch. -/
theorem c7_witness :
    (true = false ∨ dictLookup ([] : List (String × PageData))
      "http://example.com/" = none) ∧
    (fetchPage true helloNet simpleResolve [] "http://example.com/"
      true false true).1.success = true ∧
    ((fetchPage true helloNet simpleResolve [] "http://example.com/"
      true false true).1.text ≠ none ↔ true = true) ∧
    ((fetchPage true helloNet simpleResolve [] "http://example.com/"
      true false true).1.links ≠ none ↔ false = true) := by
  have h := c7_amended_live_fields_iff true helloNet simpleResolve []
    "http://example.com/" true false true (Or.inr rfl) (by decide)
  exact ⟨Or.inr rfl, by decide, h.1, h.2⟩

/-- Claim C8, refuted at a concrete input: a fetch_page call with
extract_links true that succeeds from a cache entry written by an earlier
extract_links-false call returns no links field at all, so not every
extract_links success carries the resolved, filtered anchor list. -/
theorem c8_counterexample :
    (fetchPage true twoAnchorNet simpleResolve
      ((fetchPage true twoAnchorNet simpleResolve [] "http://example.com"
        true false true).2.1)
      "http://example.com" true true true).1.success = true ∧
    (fetchPage true twoAnchorNet simpleResolve
      ((fetchPage true twoAnchorNet simpleResolve [] "http://example.com"
        true false true).2.1)
      "http://example.com" true true true).1.cached = some true ∧
    (fetchPage true twoAnchorNet simpleResolve
      ((fetchPage true twoAnchorNet simpleResolve [] "http://example.com"
        true false true).2.1)
      "http://example.com" true true true).1.links = none := by
  decide

/-- Claim C8 as amended: every fetch_page success served live (not from the
cache) with extract_links requested returns as links exactly the page's
anchors, each resolved against the page URL and kept only when _is_safe_url
accepts the resolved target; a cache-hit success instead returns whatever
links field the original caching call stored, regardless of the current
extract_links argument. -/
theorem c8_links_resolved_and_filtered (net : String → FetchOutcome)
    (resolve : String → String → String) (visited : List (String × PageData))
    (url : String) (extractText useCache : Bool) (page : Page)
    (hsafe : isSafeUrl url = true)
    (hmiss : useCache = false ∨ dictLookup visited url = none)
    (hnet : net url = FetchOutcome.response 200 page) :
    (fetchPage true net resolve visited url extractText true useCache).1.success
      = true ∧
    (fetchPage true net resolve visited url extractText true useCache).1.links =
      some ((page.anchors.map
        (fun a => LinkEntry.mk a.text (resolve url a.href))).filter
        (fun l => isSafeUrl l.url)) := by
  rw [fetchPage_live_response net resolve visited url extractText true useCache
    page hsafe hmiss hnet]
  exact ⟨rfl, rfl⟩

/-- Witness for the amended claim C8: of two anchors, the relative one is
resolved and kept while the loopback one is filtered out. -/
theorem c8_witness :
    isSafeUrl "http://example.com" = true ∧
    twoAnchorNet "http://example.com" = FetchOutcome.response 200 twoAnchorPage ∧
    (fetchPage true twoAnchorNet simpleResolve [] "http://example.com"
      true true true).1.links =
      some [{ text := "ok", url := "http://example.com/page" }] := by
  have h := c8_links_resolved_and_filtered twoAnchorNet simpleResolve []
    "http://example.com" true true twoAnchorPage (by decide) (Or.inr rfl) rfl
  refine ⟨by decide, rfl, ?_⟩
  rw [h.2]
  decide

/-- The round loop of search_and_research executes at most its fuel many
rounds and passes the unchanged original query to every round. -/
theorem researchRounds_queries (cfg : Config) (outcomes : Nat → SearchOutcome)
    (net : String → FetchOutcome) (resolve : String → String → String)
    (query : String) (numIterations : Nat) :
    ∀ (fuel i : Nat) (st : BrowserState),
      (researchRounds cfg outcomes net resolve query numIterations
        fuel i query st).2.1.length ≤ fuel ∧
      ∀ q ∈ (researchRounds cfg outcomes net resolve query numIterations
        fuel i query st).2.1, q = query := by
  intro fuel
  induction fuel with
  | zero => intro i st; simp [researchRounds]
  | succ f ih =>
    intro i st
    simp only [researchRounds]
    cases hc : (collectInformation cfg outcomes net resolve st query 3).1.success with
    | false => simp [hc]
    | true =>
      have h := ih (i + 1)
        (collectInformation cfg outcomes net resolve st query 3).2.1
      simp only [hc, ite_self, Bool.not_true, Bool.false_eq_true, if_false]
      constructor
      · simpa using Nat.succ_le_succ h.1
      · intro q hq
        simp only [List.mem_cons] at hq
        rcases hq with hq | hq
        · exact hq
        · exact h.2 q hq

/-- Claim C9: search_and_research runs at most num_iterations collection
rounds, passes the same original query text to collect_information in every
round, and reports total_sources as the sum over the completed rounds of the
length of each round's detailed_info list. -/
theorem c9_research_rounds (cfg : Config) (outcomes : Nat → SearchOutcome)
    (net : String → FetchOutcome) (resolve : String → String → String)
    (st : BrowserState) (query : String) (numIterations : Nat)
    (hen : cfg.enabled = true) :
    (searchAndResearch cfg outcomes net resolve st query
      numIterations).2.1.length ≤ numIterations ∧
    (∀ q ∈ (searchAndResearch cfg outcomes net resolve st query
      numIterations).2.1, q = query) ∧
    (searchAndResearch cfg outcomes net resolve st query
        numIterations).1.totalSources
      = some ((((searchAndResearch cfg outcomes net resolve st query
          numIterations).1.results.getD []).map
          (fun c => (c.detailedInfo.getD []).length)).sum) := by
  have h := researchRounds_queries cfg outcomes net resolve query numIterations
    numIterations 0 st
  refine ⟨?_, ?_, ?_⟩
  · simpa [searchAndResearch, hen] using h.1
  · simpa [searchAndResearch, hen] using h.2
  · simp [searchAndResearch, hen]

/-- Witness for claim C9 at a concrete two-round run. -/
theorem c9_witness :
    ({} : Config).enabled = true ∧
    (searchAndResearch {} failingOutcomes timeoutNet simpleResolve
      ⟨[], []⟩ "q" 2).2.1.length ≤ 2 ∧
    (∀ q ∈ (searchAndResearch {} failingOutcomes timeoutNet simpleResolve
      ⟨[], []⟩ "q" 2).2.1, q = "q") ∧
    (searchAndResearch {} failingOutcomes timeoutNet simpleResolve
        ⟨[], []⟩ "q" 2).1.totalSources
      = some ((((searchAndResearch {} failingOutcomes timeoutNet simpleResolve
          ⟨[], []⟩ "q" 2).1.results.getD []).map
          (fun c => (c.detailedInfo.getD []).length)).sum) := by
  have h := c9_research_rounds {} failingOutcomes timeoutNet simpleResolve
    ⟨[], []⟩ "q" 2 rfl
  exact ⟨rfl, h.1, h.2.1, h.2.2⟩

end Mongkok
